import Mathlib

/-!
Verification of the scroll-driven 3D scene animator of blueforge-ai
(`src/js/three-scene.js`, enhanced `BlueforgeScene` variant unless noted).
The JavaScript source is shallowly embedded: pure per-frame formulas become
Lean functions over `ℝ`, the per-frame mutation of buffers becomes explicit
state passing (`List.foldl` over a schedule of frame timestamps), and the
special values of JavaScript arithmetic (NaN, infinities) are made explicit
where a claim depends on them.
-/

noncomputable section

namespace Blueforge

/-- 3D vectors as real triples, standing in for `THREE.Vector3`. -/
abbrev Vec3 : Type := ℝ × ℝ × ℝ

/-- Scalar linear interpolation used componentwise by the camera path. -/
def lerp (a b t : ℝ) : ℝ := a + (b - a) * t

/-- Componentwise linear interpolation of two `Vec3`. -/
def lerpV (a b : Vec3) (t : ℝ) : Vec3 :=
  (lerp a.1 b.1 t, lerp a.2.1 b.2.1 t, lerp a.2.2 b.2.2 t)

/-! ## JavaScript number semantics

`onScroll` computes `Math.min(scrollY / heroHeight, 1)`.  JavaScript division
of finite numbers yields NaN for `0/0` and a signed infinity for `x/0` with
`x ≠ 0`; `Math.min` returns NaN when either argument is NaN.  We model just
enough of IEEE special values to settle the zero-height claim. -/

/-- A JavaScript number: a finite real, NaN, or a signed infinity
(`inf true` is `+Infinity`, `inf false` is `-Infinity`). -/
inductive JSVal : Type where
  | num : ℝ → JSVal
  | nan : JSVal
  | inf : Bool → JSVal

/-- JavaScript division restricted to the operand shapes this program can
produce: finite/finite (with the IEEE zero-divisor special cases), and NaN
or infinity propagation. -/
def jsDiv : JSVal → JSVal → JSVal
  | JSVal.num x, JSVal.num y =>
      if y = 0 then
        if x > 0 then JSVal.inf true
        else if x < 0 then JSVal.inf false
        else JSVal.nan
      else JSVal.num (x / y)
  | JSVal.nan, _ => JSVal.nan
  | _, JSVal.nan => JSVal.nan
  | JSVal.inf _, JSVal.inf _ => JSVal.nan
  | JSVal.inf s, JSVal.num y => if y < 0 then JSVal.inf (!s) else JSVal.inf s
  | JSVal.num _, JSVal.inf _ => JSVal.num 0

/-- `Math.min` on two JavaScript numbers: NaN-propagating minimum. -/
def jsMin : JSVal → JSVal → JSVal
  | JSVal.nan, _ => JSVal.nan
  | _, JSVal.nan => JSVal.nan
  | JSVal.num x, JSVal.num y => JSVal.num (min x y)
  | JSVal.inf true, b => b
  | JSVal.inf false, _ => JSVal.inf false
  | JSVal.num x, JSVal.inf true => JSVal.num x
  | JSVal.num _, JSVal.inf false => JSVal.inf false

/-- `onScroll` progress computation:
`const progress = Math.min(scrollY / heroHeight, 1)`. -/
def onScrollProgress (scrollY heroHeight : ℝ) : JSVal :=
  jsMin (jsDiv (JSVal.num scrollY) (JSVal.num heroHeight)) (JSVal.num 1)

/-! ## Flow-particle fade logic (`animate`, data-stream loop)

```
const fadeZone = 0.15;
let opacity = 0.9;
if (t < fadeZone) opacity = t / fadeZone * 0.9;
if (t > 1 - fadeZone) opacity = (1 - t) / fadeZone * 0.9;
```
The two `if`s run in sequence, so the second one wins when it fires. -/

/-- The fixed fade-zone fraction of the particle cycle. -/
def fadeZone : ℝ := 0.15

/-- Opacity of a flow particle at curve parameter `t`, per the sequential
`if` chain in `animate`. -/
def fadeOpacity (t : ℝ) : ℝ :=
  if t > 1 - fadeZone then (1 - t) / fadeZone * 0.9
  else if t < fadeZone then t / fadeZone * 0.9
  else 0.9

/-! ## Flow-particle phase

`const t = ((time * particle.userData.speed + particle.userData.offset) % 1)`.
JavaScript `%` is a truncated remainder: for a nonnegative left operand,
`x % 1` is the fractional part of `x`; for a negative one it is the negated
fractional part of `-x`. -/

/-- JavaScript `x % 1`. -/
def jsMod1 (x : ℝ) : ℝ :=
  if 0 ≤ x then Int.fract x else -Int.fract (-x)

/-- Phase of a flow particle at elapsed `time`, with its stored `speed`
multiplier and `offset`. -/
def phase (time speed offset : ℝ) : ℝ :=
  jsMod1 (time * speed + offset)

/-- One scalar component of a quadratic Bezier curve,
`(1-t)² a + 2(1-t)t b + t² c` — `curve.getPoint` of a
`THREE.QuadraticBezierCurve3`. -/
def bez1 (a b c t : ℝ) : ℝ :=
  (1 - t) ^ 2 * a + 2 * (1 - t) * t * b + t ^ 2 * c

/-- A quadratic Bezier curve in 3D evaluated at parameter `t`. -/
def quadBezier (p0 p1 p2 : Vec3) (t : ℝ) : Vec3 :=
  (bez1 p0.1 p1.1 p2.1 t, bez1 p0.2.1 p1.2.1 p2.2.1 t, bez1 p0.2.2 p1.2.2 p2.2.2 t)

/-- Position of a flow particle: the stream's curve evaluated at the
particle's current phase (`particle.position.copy(stream.curve.getPoint(t))`). -/
def flowParticlePos (p0 p1 p2 : Vec3) (time speed offset : ℝ) : Vec3 :=
  quadBezier p0 p1 p2 (phase time speed offset)

/-! ## Helper lemmas -/

/-- For a nonnegative argument, JavaScript `% 1` is the fractional part. -/
theorem jsMod1_of_nonneg {x : ℝ} (hx : 0 ≤ x) : jsMod1 x = Int.fract x := by
  simp [jsMod1, hx]

/-- The fade opacity is within `[0, 0.9]` on the half-open unit interval. -/
theorem fadeOpacity_mem_Icc {t : ℝ} (h0 : 0 ≤ t) (h1 : t < 1) :
    0 ≤ fadeOpacity t ∧ fadeOpacity t ≤ 0.9 := by
  unfold fadeOpacity fadeZone
  split_ifs with hHi hLo
  · constructor
    · have h1t : (0 : ℝ) ≤ 1 - t := by linarith
      positivity
    · rw [div_mul_eq_mul_div, div_le_iff₀ (by norm_num : (0.15 : ℝ) > 0)]
      nlinarith
  · constructor
    · positivity
    · rw [div_mul_eq_mul_div, div_le_iff₀ (by norm_num : (0.15 : ℝ) > 0)]
      nlinarith
  · norm_num

end Blueforge

namespace Blueforge

/-- Claim C5: the flow-particle fade function gives opacity 0 at phase
exactly 0 and exactly 1, the full constant 0.9 at phase 0.5, and within the
fade zone near either end the opacity is the linear ramp between 0 and 0.9. -/
theorem fade_endpoints_and_linear_ramp :
    fadeOpacity 0 = 0 ∧ fadeOpacity 1 = 0 ∧ fadeOpacity (1 / 2) = 0.9 ∧
    (∀ t : ℝ, 0 ≤ t → t ≤ fadeZone → fadeOpacity t = t / fadeZone * 0.9) ∧
    (∀ t : ℝ, 1 - fadeZone ≤ t → t ≤ 1 → fadeOpacity t = (1 - t) / fadeZone * 0.9) := by
  refine ⟨?_, ?_, ?_, ?_, ?_⟩
  · unfold fadeOpacity fadeZone; norm_num
  · unfold fadeOpacity fadeZone; norm_num
  · unfold fadeOpacity fadeZone; norm_num
  · intro t ht0 ht1
    unfold fadeOpacity fadeZone at *
    rcases lt_or_eq_of_le ht1 with hlt | heq
    · rw [if_neg (by norm_num; linarith), if_pos hlt]
    · subst heq; norm_num
  · intro t ht0 ht1
    unfold fadeOpacity fadeZone at *
    rcases eq_or_lt_of_le ht0 with heq | hlt
    · rw [← heq]; norm_num
    · rw [if_pos (by norm_num; linarith)]

/-- Witness for C5: the low ramp formula at the concrete phase `0.1`. -/
theorem fade_endpoints_and_linear_ramp_witness :
    fadeOpacity 0.1 = 0.1 / fadeZone * 0.9 :=
  fade_endpoints_and_linear_ramp.2.2.2.1 0.1 (by norm_num) (by norm_num [fadeZone])

/-- Claim C9: for every flow particle (nonnegative elapsed time, speed
multiplier, and phase offset) the fade opacity computed at the particle's
phase lies in `[0, 0.9]`: the ramps never produce a negative opacity or one
above the full constant, since the phase lies in `[0, 1)`. -/
theorem fadeOpacity_phase_bounds (time speed offset : ℝ)
    (htime : 0 ≤ time) (hspeed : 0 ≤ speed) (hoffset : 0 ≤ offset) :
    0 ≤ fadeOpacity (phase time speed offset) ∧
    fadeOpacity (phase time speed offset) ≤ 0.9 := by
  have harg : 0 ≤ time * speed + offset := by positivity
  have hphase : phase time speed offset = Int.fract (time * speed + offset) := by
    unfold phase; exact jsMod1_of_nonneg harg
  rw [hphase]
  exact fadeOpacity_mem_Icc (Int.fract_nonneg _) (Int.fract_lt_one _)

/-- Witness for C9: opacity bounds at time 1, speed 1/2, offset 1/4. -/
theorem fadeOpacity_phase_bounds_witness :
    0 ≤ fadeOpacity (phase 1 (1 / 2) (1 / 4)) ∧
    fadeOpacity (phase 1 (1 / 2) (1 / 4)) ≤ 0.9 :=
  fadeOpacity_phase_bounds 1 (1 / 2) (1 / 4) (by norm_num) (by norm_num) (by norm_num)



/-- Claim C3: a flow particle's position is always the stream curve evaluated
at phase `(time * speed + offset) % 1`, and the phase is exactly periodic:
for speed `s ≠ 0` and realizable (nonnegative) phase arguments,
`phase (t + k / s) = phase t` for every integer `k`, so the particle returns
to the same curve point after each full cycle with no accumulated drift. -/
theorem flow_particle_on_curve_and_periodic (p0 p1 p2 : Vec3) (t s o : ℝ) (k : ℤ)
    (hs : s ≠ 0) (h1 : 0 ≤ t * s + o) (h2 : 0 ≤ (t + k / s) * s + o) :
    flowParticlePos p0 p1 p2 t s o = quadBezier p0 p1 p2 (phase t s o) ∧
    phase (t + k / s) s o = phase t s o ∧
    flowParticlePos p0 p1 p2 (t + k / s) s o = flowParticlePos p0 p1 p2 t s o := by
  have harg : (t + (k : ℝ) / s) * s + o = (t * s + o) + (k : ℝ) := by
    field_simp
    ring
  have hphase : phase (t + (k : ℝ) / s) s o = phase t s o := by
    unfold phase
    rw [jsMod1_of_nonneg h2, harg, Int.fract_add_int, jsMod1_of_nonneg h1]
  refine ⟨rfl, hphase, ?_⟩
  unfold flowParticlePos
  rw [hphase]

/-- Witness for C3: periodicity at time 1, speed 1/2, offset 1/4, k = 2. -/
theorem flow_particle_on_curve_and_periodic_witness :
    phase (1 + ((2 : ℤ) : ℝ) / (1 / 2)) (1 / 2) (1 / 4) = phase 1 (1 / 2) (1 / 4) :=
  (flow_particle_on_curve_and_periodic ((0, 0, 0) : Vec3) ((0, 0, 0) : Vec3)
    ((0, 0, 0) : Vec3) 1 (1 / 2) (1 / 4) 2 (by norm_num) (by norm_num)
    (by push_cast; norm_num)).2.1

/-- Claim C2 fails at zero height: with `scrollY = 0` and `heroHeight = 0`,
the JavaScript computation divides zero by zero and `Math.min` propagates
the resulting NaN, so the progress is NaN rather than the claimed 0. -/
theorem onScrollProgress_zero_height_not_zero :
    onScrollProgress 0 0 = JSVal.nan ∧ JSVal.nan ≠ JSVal.num 0 := by
  constructor
  · norm_num [onScrollProgress, jsDiv, jsMin]
  · intro h
    exact JSVal.noConfusion h

/-- Claim C2 (amended): for a positive total height and nonnegative scroll
offset, the recomputed progress is the finite number
`min (scrollY / heroHeight) 1`, which lies in `[0, 1]`; the code clamps only
from above, and at zero height it produces NaN or 1, never the claimed 0. -/
theorem onScrollProgress_pos_height (s h : ℝ) (hh : 0 < h) (hs : 0 ≤ s) :
    onScrollProgress s h = JSVal.num (min (s / h) 1) ∧
    0 ≤ min (s / h) 1 ∧ min (s / h) 1 ≤ 1 := by
  have hne : h ≠ 0 := ne_of_gt hh
  refine ⟨?_, ?_, min_le_right _ _⟩
  · simp [onScrollProgress, jsDiv, jsMin, hne]
  · exact le_min (div_nonneg hs hh.le) zero_le_one

/-- Witness for C2: scroll offset 1 over height 2 gives progress 1/2. -/
theorem onScrollProgress_pos_height_witness :
    onScrollProgress 1 2 = JSVal.num (min ((1 : ℝ) / 2) 1) ∧
    0 ≤ min ((1 : ℝ) / 2) 1 ∧ min ((1 : ℝ) / 2) 1 ≤ 1 :=
  onScrollProgress_pos_height 1 2 (by norm_num) (by norm_num)

/-! ## Camera path planner

`onScroll` drives the camera from scroll progress:
```
this.camera.position.z = 35 + progress * 30;
this.camera.position.y = -progress * 10;
```
and `animate` always calls `this.camera.lookAt(0, 0, 0)`.  The scroll-driven
camera trajectory is therefore an affine map of progress, i.e. the
piecewise-linear path over the two-waypoint list below.  `specPositionAt`
is the spec's piecewise-linear interpolation algorithm, written separately
from the source so that the two can be compared. -/

/-- A camera waypoint: a position and a look-at target. -/
structure Waypoint where
  position : Vec3
  lookAt : Vec3

/-- Number of segments of a waypoint list (`N = waypoints - 1`). -/
def segCount (wps : List Waypoint) : ℕ := wps.length - 1

/-- Segment index for progress `p`: `floor(p * N)` clamped to `[0, N-1]`. -/
def segIndex (wps : List Waypoint) (p : ℝ) : ℕ :=
  min (Int.toNat ⌊p * (segCount wps : ℝ)⌋) (segCount wps - 1)

/-- Local interpolation parameter: `scaled - index`. -/
def localT (wps : List Waypoint) (p : ℝ) : ℝ :=
  p * (segCount wps : ℝ) - (segIndex wps p : ℝ)

/-- Clamped waypoint lookup (the clamp on `segIndex` makes every access
in-range; out-of-range lookup would fall back to the origin waypoint). -/
def wpAt (wps : List Waypoint) (i : ℕ) : Waypoint :=
  wps.getD i ⟨(0, 0, 0), (0, 0, 0)⟩

/-- Modelled from the spec: `position_at(progress)` as the spec states it —
piecewise-linear interpolation of both position and look-at between
`waypoint[index]` and `waypoint[index+1]`. -/
def specPositionAt (wps : List Waypoint) (p : ℝ) : Vec3 × Vec3 :=
  (lerpV (wpAt wps (segIndex wps p)).position
     (wpAt wps (segIndex wps p + 1)).position (localT wps p),
   lerpV (wpAt wps (segIndex wps p)).lookAt
     (wpAt wps (segIndex wps p + 1)).lookAt (localT wps p))

/-- `onScroll`: `this.camera.position.y = -progress * 10`. -/
def onScrollCameraY (progress : ℝ) : ℝ := -progress * 10

/-- `onScroll`: `this.camera.position.z = 35 + progress * 30`. -/
def onScrollCameraZ (progress : ℝ) : ℝ := 35 + progress * 30

/-- The scroll-driven camera position (camera x keeps its initial 0 under
zero pointer input). -/
def scrollCameraPos (progress : ℝ) : Vec3 :=
  (0, onScrollCameraY progress, onScrollCameraZ progress)

/-- `animate` points the camera at the origin: `this.camera.lookAt(0, 0, 0)`. -/
def cameraLookAt : Vec3 := (0, 0, 0)

/-- The two waypoints traced by the scroll-driven camera: progress 0 is the
initial pose `(0, 0, 35)`, progress 1 is `(0, -10, 65)`, both looking at the
origin. -/
def cameraWaypoints : List Waypoint :=
  [⟨(0, 0, 35), cameraLookAt⟩, ⟨(0, -10, 65), cameraLookAt⟩]

/-- On any two-waypoint path the spec's piecewise-linear algorithm reduces
to one plain linear interpolation over the whole range. -/
theorem specPositionAt_pair (w0 w1 : Waypoint) (p : ℝ) :
    specPositionAt [w0, w1] p =
      (lerpV w0.position w1.position p, lerpV w0.lookAt w1.lookAt p) := by
  have hseg : segIndex [w0, w1] p = 0 := by
    norm_num [segIndex, segCount]
  have hloc : localT [w0, w1] p = p := by
    unfold localT
    rw [hseg]
    norm_num [segCount]
  unfold specPositionAt
  rw [hseg, hloc]
  rfl

/-- On the code's two-waypoint path the spec's piecewise-linear algorithm
yields exactly the affine camera map of `onScroll`. -/
theorem specPositionAt_cameraWaypoints (p : ℝ) :
    specPositionAt cameraWaypoints p = ((0, -p * 10, 35 + p * 30), cameraLookAt) := by
  rw [show cameraWaypoints =
        [⟨(0, 0, 35), cameraLookAt⟩, ⟨(0, -10, 65), cameraLookAt⟩] from rfl,
      specPositionAt_pair]
  simp only [lerpV, lerp, cameraLookAt, Prod.mk.injEq]
  norm_num
  constructor
  · ring
  · ring

/-- Claim C1: the scroll-driven camera mapping is exactly `position_at` over
an ordered list of (at least) two (position, look-at) waypoints: for every
progress in `[0, 1]` the piecewise-linear interpolation over
`cameraWaypoints` equals the camera pose the code computes, and progress 0
and 1 resolve exactly to the first and last waypoint with no out-of-range
index. -/
theorem position_at_matches_scroll_camera (p : ℝ) (h0 : 0 ≤ p) (h1 : p ≤ 1) :
    2 ≤ cameraWaypoints.length ∧
    specPositionAt cameraWaypoints p = (scrollCameraPos p, cameraLookAt) ∧
    specPositionAt cameraWaypoints 0 =
      ((wpAt cameraWaypoints 0).position, (wpAt cameraWaypoints 0).lookAt) ∧
    specPositionAt cameraWaypoints 1 =
      ((wpAt cameraWaypoints 1).position, (wpAt cameraWaypoints 1).lookAt) := by
  refine ⟨by simp [cameraWaypoints], ?_, ?_, ?_⟩
  · rw [specPositionAt_cameraWaypoints]
    simp [scrollCameraPos, onScrollCameraY, onScrollCameraZ]
  · rw [specPositionAt_cameraWaypoints]
    norm_num [wpAt, cameraWaypoints, cameraLookAt]
  · rw [specPositionAt_cameraWaypoints]
    norm_num [wpAt, cameraWaypoints, cameraLookAt]

/-- Witness for C1: the relation at progress 1/2. -/
theorem position_at_matches_scroll_camera_witness :
    specPositionAt cameraWaypoints (1 / 2) = (scrollCameraPos (1 / 2), cameraLookAt) :=
  (position_at_matches_scroll_camera (1 / 2) (by norm_num) (by norm_num)).2.1

/-! ## Node layout and per-frame node animation (`createNodes`, `animate`)

```
group.position.y = node.originalPos[1] + Math.sin(time * 0.8 + i * 0.5) * 0.8;
group.position.x = node.originalPos[0] + Math.cos(time * 0.5 + i * 0.3) * 0.3;
```
The z component of the group position is never written after construction. -/

/-- The seven node positions, in order
[SENSORS, PLCs, SCADA, HISTORIAN, AI/ML, DASHBOARD, REPORTS]. -/
def nodeData : List Vec3 :=
  [(-15, 12, -5), (0, 15, 0), (15, 12, -5), (0, 0, 8),
   (-15, -12, -5), (0, -15, 0), (15, -12, -5)]

/-- The six (source index, destination index) stream connections. -/
def connections : List (ℕ × ℕ) := [(0, 3), (1, 3), (2, 3), (3, 4), (3, 5), (3, 6)]

/-- `this.nodes[i].originalPos`, the construction-time position of node `i`. -/
def originalPos (i : ℕ) : Vec3 := nodeData.getD i (0, 0, 0)

/-- One `animate` frame's write to node `i`'s group position at elapsed
`time`: x and y are overwritten from the original position plus periodic
offsets, z is left as it was. -/
def animateNodePos (orig : Vec3) (i : ℕ) (time : ℝ) (pos : Vec3) : Vec3 :=
  (orig.1 + Real.cos (time * 0.5 + (i : ℝ) * 0.3) * 0.3,
   orig.2.1 + Real.sin (time * 0.8 + (i : ℝ) * 0.5) * 0.8,
   pos.2.2)

/-- Displayed position of node `i` after one `animate` frame at elapsed
`time` (the group starts at `originalPos i`). -/
def nodeDisplayed (i : ℕ) (time : ℝ) : Vec3 :=
  animateNodePos (originalPos i) i time (originalPos i)

/-- Claim C4 fails: after one frame at t = 0 with zero input, node 0
(SENSORS) is displayed at x = -15 + cos(0) * 0.3 = -14.7, not at its
original x = -15. -/
theorem node_zero_displaced_at_time_zero :
    nodeDisplayed 0 0 ≠ originalPos 0 := by
  intro h
  have hx := congrArg Prod.fst h
  simp only [nodeDisplayed, animateNodePos, originalPos, nodeData,
    List.getD_cons_zero, Nat.cast_zero] at hx
  norm_num [Real.cos_zero] at hx

/-- Claim C4 (amended): after one frame at t = 0 with zero scroll and zero
pointer input, each node's displayed position is its original position
offset by the fixed t = 0 constants of the code's phase convention —
`cos(0.3 i) * 0.3` in x and `sin(0.5 i) * 0.8` in y — with the z component
exactly the original. -/
theorem node_displayed_at_time_zero (i : ℕ) :
    nodeDisplayed i 0 =
      ((originalPos i).1 + Real.cos ((i : ℝ) * 0.3) * 0.3,
       (originalPos i).2.1 + Real.sin ((i : ℝ) * 0.5) * 0.8,
       (originalPos i).2.2) := by
  simp [nodeDisplayed, animateNodePos]

/-- Claim C10: over any schedule of `animate` frames, the z component of a
node's displayed position stays exactly the construction-time z — the frame
animator perturbs only x and y. -/
theorem node_z_never_written (i : ℕ) (times : List ℝ) :
    (times.foldl (fun pos time => animateNodePos (originalPos i) i time pos)
      (originalPos i)).2.2 = (originalPos i).2.2 := by
  suffices h : ∀ pos : Vec3,
      (times.foldl (fun pos time => animateNodePos (originalPos i) i time pos)
        pos).2.2 = pos.2.2 by
    exact h (originalPos i)
  induction times with
  | nil => intro pos; rfl
  | cons t ts ih =>
      intro pos
      simp only [List.foldl_cons]
      rw [ih]
      rfl

/-! ## Frame schedules and accumulation (`animate`, ambient particles)

Node transforms and the ambient field rotation are overwritten each frame
from the elapsed time, but the ambient particle y coordinates are
incremented in place:
```
this.ambientParticles.rotation.y = time * 0.02;
for (let i = 0; i < positions.length; i += 3) {
    positions[i + 1] += Math.sin(time + i) * 0.002;
}
```
(`i` is the flat buffer index, `3 * j` for particle `j`). -/

/-- The per-frame scene state tracked by the schedule model: the node group
y positions, the ambient field's rotation angle, and the ambient particle y
coordinates. -/
structure FrameState where
  nodeY : ℕ → ℝ
  fieldRotY : ℝ
  ambientY : ℕ → ℝ

/-- One `animate` iteration at elapsed `time`: node y and field rotation
are overwritten from `time`; each ambient particle's y is incremented. -/
def animateFrame (s : FrameState) (time : ℝ) : FrameState :=
  { nodeY := fun i => (originalPos i).2.1 + Real.sin (time * 0.8 + (i : ℝ) * 0.5) * 0.8,
    fieldRotY := time * 0.02,
    ambientY := fun j => s.ambientY j + Real.sin (time + 3 * (j : ℝ)) * 0.002 }

/-- Run `animate` over a schedule of frame timestamps. -/
def runFrames (s : FrameState) (times : List ℝ) : FrameState :=
  times.foldl animateFrame s

/-- A common starting state for comparing two frame schedules. -/
def startState : FrameState :=
  { nodeY := fun i => (originalPos i).2.1, fieldRotY := 0, ambientY := fun _ => 0 }

/-- Claim C6 fails: the schedules `[π/6, π/2]` and `[π/2]` reach the same
elapsed time π/2, yet leave ambient particle 0 at different heights —
ambient drift accumulates one increment per frame executed, so the scene
state is not a function of elapsed time alone. -/
theorem frame_count_changes_ambient :
    [Real.pi / 6, Real.pi / 2].getLast? = [Real.pi / 2].getLast? ∧
    (runFrames startState [Real.pi / 6, Real.pi / 2]).ambientY 0 ≠
      (runFrames startState [Real.pi / 2]).ambientY 0 := by
  constructor
  · rfl
  · simp only [runFrames, List.foldl_cons, List.foldl_nil, animateFrame, startState]
    norm_num [Real.sin_pi_div_six, Real.sin_pi_div_two]

/-- Claim C6 (amended): the parameters `animate` overwrites from elapsed
time alone — node displayed positions and the ambient field's rotation
angle — depend only on the time of the last frame: any two schedules, even
from different starting states, ending at the same elapsed time agree on
them.  Ambient particle positions are the exception: they accumulate one
increment per executed frame (see the counterexample). -/
theorem overwritten_params_depend_on_last_time (s1 s2 : FrameState)
    (ts1 ts2 : List ℝ) (t : ℝ) :
    (runFrames s1 (ts1 ++ [t])).nodeY = (runFrames s2 (ts2 ++ [t])).nodeY ∧
    (runFrames s1 (ts1 ++ [t])).fieldRotY = (runFrames s2 (ts2 ++ [t])).fieldRotY := by
  have h : ∀ (s : FrameState) (ts : List ℝ),
      runFrames s (ts ++ [t]) = animateFrame (runFrames s ts) t := by
    intro s ts
    simp [runFrames, List.foldl_append]
  rw [h s1 ts1, h s2 ts2]
  exact ⟨rfl, rfl⟩

/-! ## Constructor guard

```
this.container = document.getElementById('hero-canvas');
if (!this.container) return;
```
The guard precedes every other constructor statement, and the constructor
body has no throwing path. -/

/-- The side-effecting steps the constructor can take, in program order. -/
inductive InitAction : Type where
  | initScene : InitAction
  | createBackground : InitAction
  | createNodes : InitAction
  | createDataStreams : InitAction
  | createAmbientParticles : InitAction
  | addLights : InitAction
  | startAnimationLoop : InitAction
  | addResizeListener : InitAction
  | addMouseMoveListener : InitAction
  | addScrollListener : InitAction

/-- The constructor: looks up the canvas mount point; when absent, the
guard returns before any other statement runs.  The result is the ordered
list of performed side effects, or an error had any path thrown. -/
def constructorRun (containerPresent : Bool) : Except String (List InitAction) :=
  if containerPresent then
    Except.ok [InitAction.initScene, InitAction.createBackground,
      InitAction.createNodes, InitAction.createDataStreams,
      InitAction.createAmbientParticles, InitAction.addLights,
      InitAction.startAnimationLoop, InitAction.addResizeListener,
      InitAction.addMouseMoveListener, InitAction.addScrollListener]
  else
    Except.ok []

/-- Claim C7: with the canvas mount point absent, construction is inert —
it performs no side effects (no listeners, no animation loop, no scene
resources) and raises no error — while a present mount point does produce
effects, so the guard is what makes the difference. -/
theorem constructor_inert_without_container :
    constructorRun false = Except.ok ([] : List InitAction) ∧
    constructorRun true ≠ constructorRun false := by
  constructor
  · rfl
  · intro h
    simp [constructorRun] at h

/-! ## Input smoothing (`animate`, `onScroll`)

`animate` smooths the pointer coordinates:
```
this.mouseX += (this.targetMouseX - this.mouseX) * 0.05;
```
and drives camera x from the smoothed value
(`this.camera.position.x = this.mouseX * 5`).  The scroll progress has no
smoothed counterpart: `onScroll` writes the camera's z (and base y)
directly from the raw progress. -/

/-- One `animate` iteration's smoothing of a pointer coordinate toward its
latest raw value. -/
def smoothMouse (mouse target : ℝ) : ℝ := mouse + (target - mouse) * 0.05

/-- `animate`: `this.camera.position.x = this.mouseX * 5`. -/
def camXFromMouse (mouseX : ℝ) : ℝ := mouseX * 5

/-- `onScroll`'s camera-z update viewed as a state transformer: the new
value is computed from the raw progress alone and ignores the previous
camera z. -/
def onScrollUpdateCamZ (oldCamZ progress : ℝ) : ℝ := 35 + progress * 30

/-- Modelled from the spec: one exponential-smoothing step
`new = old + (raw - old) * k`. -/
def specSmoothedStep (old raw k : ℝ) : ℝ := old + (raw - old) * k

/-- Claim C8 fails for the scroll input: a scroll event to raw progress 1
moves the camera z from 35 to 65 in one jump — not one exponential
smoothing step (with the code's own constant 0.05) from the previous value
toward the raw target, which would give 36.5. -/
theorem scroll_progress_not_smoothed :
    onScrollUpdateCamZ 35 1 = 65 ∧
    onScrollUpdateCamZ 35 1 ≠ specSmoothedStep 35 (onScrollUpdateCamZ 35 1) 0.05 := by
  constructor <;> norm_num [onScrollUpdateCamZ, specSmoothedStep]

/-- Claim C8 (amended): each `animate` iteration smooths only the pointer
coordinates, by exactly one spec smoothing step with the fixed constant
k = 0.05 — so the distance to the raw value contracts by the factor 0.95
per frame — and the camera x is driven from the smoothed value; the scroll
progress is applied to the camera unsmoothed (see the counterexample). -/
theorem mouse_smoothing_step (mouse target : ℝ) :
    smoothMouse mouse target = specSmoothedStep mouse target 0.05 ∧
    smoothMouse mouse target - target = 0.95 * (mouse - target) ∧
    camXFromMouse (smoothMouse mouse target) = smoothMouse mouse target * 5 := by
  refine ⟨rfl, ?_, rfl⟩
  unfold smoothMouse
  ring

end Blueforge

end
